import Mathlib

/-!
# Verification of the declaration checker in lib/Sema/TypeCheckDecl.cpp

This file gives a shallow embedding of the declaration-level semantic
analyzer (inheritance-clause resolution, implicit constructor synthesis,
default-initializability, conformance recording, ObjC bridging propagation,
attribute validation, and the no-initializer pattern-binding path), and
proves or refutes the specification claims about it.

External collaborators (the type validator, expression checker, conformance
checker, and constructor lookup) are modelled as data attached to the inputs
or as oracle functions, following the interfaces the source consumes.
-/

set_option linter.unusedVariables false

/-- Diagnostics emitted through the diagnostics sink.  Each constructor
corresponds to one `diag::` id used in `TypeCheckDecl.cpp`; payloads are kept
only where a claim needs to distinguish them. -/
inductive Diag where
  | duplicateInheritance (key : Nat)
  | multipleInheritance (first cur : String)
  | superclassNotFirst (cur : String)
  | extensionClassInheritance
  | nonClassInheritance
  | inheritanceFromNonProtocolOrClass
  | inheritanceFromNonProtocol
  | operatorNotFunc
  | customOperatorAddressof
  | invalidObjCDecl
  | objcProtocolNotClassProtocol
  | invalidOwnershipDecl (kindNum : Nat)
  | invalidOwnershipOpaqueType (kindNum : Nat)
  | invalidOwnershipType (kindNum : Nat)
  | invalidIBOutlet
  | invalidIBActionDecl
  | invalidIBActionResult
  | infixNotAnOperator
  | invalidInfixInput
  | postfixNotAnOperator
  | invalidPostfixInput
  | prefixNotAnOperator
  | invalidPrefixInput
  | invalidDeclAttribute (name : String)
  | assignmentWithoutByref
  | conversionNotInstanceMethod
  | conversionParams
  | forceInlineNotFunction
  | forceInlineCurryNotSupported
  | forceInlineGenericNotSupported
  | classProtocolNotProtocol
  | declNoDefaultInit
  | whileConvertingVarInit
deriving DecidableEq, Repr

/-- A member returned by the external `lookupConstructors` name-lookup
interface.  The default-constructor search in `isDefaultInitializable`
only inspects whether a member is a `ConstructorDecl`, whether its argument
type is a tuple, and which tuple elements carry a default initializer, so a
member is modelled by exactly that data (`paramHasInit` lists, per element of
the argument tuple, whether that element has its own initializer). -/
inductive CtorMember where
  | notCtor
  | ctorNonTupleArg
  | ctorM (paramHasInit : List Bool)
deriving DecidableEq, Repr

mutual

/-- Canonical types, following the `TypeKind` cases that
`TypeChecker::isDefaultInitializable` switches over.  Sugared kinds are
absent because the function switches on `ty->getCanonicalType()`;
the unchecked (error) kinds are collapsed into `errorT`.  For the nominal
kinds that fall through to constructor lookup, the result of the external
`lookupConstructors` interface is attached to the type (`none` models a
failed lookup, i.e. `!ctors`). -/
inductive Ty where
  | archetype (ctors : Option (List CtorMember))
  | boundGenericStruct (ctors : Option (List CtorMember))
  | boundGenericUnion (ctors : Option (List CtorMember))
  | unionT (ctors : Option (List CtorMember))
  | structT (ctors : Option (List CtorMember))
  | arrayT (elem : Ty)
  | boundGenericClass
  | classT
  | protocolT
  | protocolComposition
  | builtinFloat
  | builtinInteger
  | builtinObjCPointer
  | builtinObjectPointer
  | builtinRawPointer
  | builtinVector
  | tupleT (fields : TFields)
  | functionT
  | lvalueT
  | polymorphicFunction
  | metaTypeT
  | moduleT
  | referenceStorage (referent : Ty)
  | errorT

/-- The field list of a tuple type: each field has a name (the empty string
models an anonymous element, `Identifier::empty`) and a type.  A bespoke list
keeps the recursion in `isDefaultInitializable` structural. -/
inductive TFields where
  | nilF
  | consF (name : String) (ty : Ty) (rest : TFields)

end

/-- Conversion of a tuple-field list to an ordinary list, for stating
theorems. -/
def TFields.toList : TFields → List (String × Ty)
  | .nilF => []
  | .consF n t rest => (n, t) :: rest.toList

/-- Witness expressions produced by `isDefaultInitializable`
(`ZeroValueExpr`, `TupleExpr`, `MetatypeExpr`, `CallExpr`). -/
inductive Expr where
  | zeroValue (ty : Ty)
  | tupleE (elts : List Expr) (names : List String)
  | metatypeE (ty : Ty)
  | callE (fn : Expr) (arg : Expr)

/-- Whether a constructor member, as inspected by the loop in
`isDefaultInitializable`, can be invoked with an empty tuple: it must be a
`ConstructorDecl` with a tuple argument type none of whose elements is
missing an initializer. -/
def ctorAcceptsEmpty : CtorMember → Bool
  | .ctorM paramHasInit => !(paramHasInit.any fun b => !b)
  | _ => false

/-- The loop over `lookupConstructors` results in `isDefaultInitializable`:
threads the `foundDefaultConstructor` flag, returns `false` from the whole
search as soon as a second empty-callable constructor is found. -/
def findDefaultConstructor : List CtorMember → Bool → Bool
  | [], found => found
  | m :: ms, found =>
    match m with
    | .notCtor => findDefaultConstructor ms found
    | .ctorNonTupleArg => findDefaultConstructor ms found
    | .ctorM paramHasInit =>
      if paramHasInit.any (fun b => !b) then findDefaultConstructor ms found
      else if found then false
      else findDefaultConstructor ms true

/-- The constructor-lookup tail of `isDefaultInitializable`: fails when the
external lookup failed (`!ctors`), otherwise searches for exactly one
constructor callable with an empty tuple and, on success, produces the
witness `CallExpr(MetatypeExpr(ty), TupleExpr())`. -/
def lookupDefaultConstructor (ctors : Option (List CtorMember)) (ty : Ty) :
    Option Expr :=
  match ctors with
  | none => none
  | some ms =>
    if findDefaultConstructor ms false then
      some (Expr.callE (Expr.metatypeE ty) (Expr.tupleE [] []))
    else none

/-- The witness built for a tuple type: the sole element's witness when the
tuple has exactly one element and its name is empty, otherwise a `TupleExpr`
of all element witnesses with their names. -/
def collapseTupleWitness : List (String × Expr) → Expr
  | [(n, e)] => if n = "" then e else Expr.tupleE [e] [n]
  | pairs => Expr.tupleE (pairs.map Prod.snd) (pairs.map Prod.fst)

mutual

/-- `TypeChecker::isDefaultInitializable`, with the boolean result and the
optional witness expression fused into an `Option Expr` (the source computes
the same boolean whether or not a witness was requested, and fills the
witness exactly when it returns true). -/
def isDefaultInitializable : Ty → Option Expr
  | Ty.archetype cs => lookupDefaultConstructor cs (Ty.archetype cs)
  | Ty.boundGenericStruct cs =>
      lookupDefaultConstructor cs (Ty.boundGenericStruct cs)
  | Ty.boundGenericUnion cs =>
      lookupDefaultConstructor cs (Ty.boundGenericUnion cs)
  | Ty.unionT cs => lookupDefaultConstructor cs (Ty.unionT cs)
  | Ty.structT cs => lookupDefaultConstructor cs (Ty.structT cs)
  | Ty.arrayT _ => none
  | Ty.boundGenericClass => some (Expr.zeroValue Ty.boundGenericClass)
  | Ty.classT => some (Expr.zeroValue Ty.classT)
  | Ty.protocolT => none
  | Ty.protocolComposition => none
  | Ty.builtinFloat => some (Expr.zeroValue Ty.builtinFloat)
  | Ty.builtinInteger => some (Expr.zeroValue Ty.builtinInteger)
  | Ty.builtinObjCPointer => some (Expr.zeroValue Ty.builtinObjCPointer)
  | Ty.builtinObjectPointer => some (Expr.zeroValue Ty.builtinObjectPointer)
  | Ty.builtinRawPointer => some (Expr.zeroValue Ty.builtinRawPointer)
  | Ty.builtinVector => some (Expr.zeroValue Ty.builtinVector)
  | Ty.tupleT fields =>
    match tupleFieldInits fields with
    | none => none
    | some pairs => some (collapseTupleWitness pairs)
  | Ty.functionT => none
  | Ty.lvalueT => none
  | Ty.polymorphicFunction => none
  | Ty.metaTypeT => none
  | Ty.moduleT => none
  | Ty.referenceStorage referent => isDefaultInitializable referent
  | Ty.errorT => none

/-- The per-element loop of the tuple case of `isDefaultInitializable`:
fails at the first element that is not default-initializable, otherwise
collects `(name, witness)` pairs in element order. -/
def tupleFieldInits : TFields → Option (List (String × Expr))
  | .nilF => some []
  | .consF n t rest =>
    match isDefaultInitializable t with
    | none => none
    | some e =>
      match tupleFieldInits rest with
      | none => none
      | some pairs => some ((n, e) :: pairs)

end

/-- A variable declaration that can appear among a struct's members or be
bound by a pattern: its name, type (`getTypeOfRValue` and `getType` coincide
in this model), and whether it is a (computed) property. -/
structure SVar where
  name : String
  ty : Ty

/-- `VarDecl::isProperty`, carried as a separate field so `SVar` stays a
plain record. -/
structure StoredVar extends SVar where
  isProperty : Bool

/-- The kind of implicit constructor being created
(`ImplicitConstructorKind`). -/
inductive ImplicitConstructorKind where
  | defaultK
  | memberwiseK
deriving DecidableEq

/-- A constructor declaration: its argument tuple (one `(name, type)` entry
per `TuplePatternElt`), whether it was marked implicit, and its body
(`none` until `setBody`; `some []` is the empty `BraceStmt`). -/
structure CtorD where
  params : List (String × Ty)
  implicit : Bool
  body : Option (List Unit)

/-- A struct member, as far as the implicit-constructor machinery inspects
members: variable declarations, constructor declarations, pattern bindings
(with their initializer presence and the variables the pattern binds), and
anything else. -/
inductive Member where
  | varM (v : StoredVar)
  | ctorDeclM (c : CtorD)
  | patternBindingM (hasInit : Bool) (vars : List StoredVar)
  | otherM

/-- A struct declaration, reduced to its member list. -/
structure StructD where
  members : List Member

/-- `createImplicitConstructor`: for the memberwise kind, one parameter per
non-property `VarDecl` member, in declaration order, with the member's name
and type; for the default kind, no parameters.  The constructor is marked
implicit and has no body yet. -/
def createImplicitConstructor (s : StructD) (ick : ImplicitConstructorKind) :
    CtorD :=
  let params :=
    match ick with
    | .memberwiseK =>
      s.members.filterMap fun m =>
        match m with
        | .varM v => if v.isProperty then none else some (v.name, v.ty)
        | _ => none
    | .defaultK => []
  { params := params, implicit := true, body := none }

/-- The member scan at the top of `TypeChecker::addImplicitConstructors`:
walks the members, breaking at the first constructor; accumulates whether a
non-property instance variable was seen before that point.  Returns
`(FoundConstructor, FoundInstanceVar)`. -/
def findCtorAndVar : List Member → Bool → Bool × Bool
  | [], foundVar => (false, foundVar)
  | m :: ms, foundVar =>
    match m with
    | .ctorDeclM _ => (true, foundVar)
    | .varM v => findCtorAndVar ms (foundVar || !v.isProperty)
    | _ => findCtorAndVar ms foundVar

/-- `TypeChecker::addImplicitConstructors`: when no user-declared
constructor exists, appends the implicit memberwise constructor to the
members; the returned flag records whether the struct was additionally
enqueued for deferred default-constructor synthesis (it had an instance
variable). -/
def addImplicitConstructors (s : StructD) : StructD × Bool :=
  let (foundConstructor, foundInstanceVar) := findCtorAndVar s.members false
  if foundConstructor then (s, false)
  else
    let ctor := createImplicitConstructor s ImplicitConstructorKind.memberwiseK
    ({ members := s.members ++ [Member.ctorDeclM ctor] }, foundInstanceVar)

/-- The verification loop of `TypeChecker::defineDefaultConstructor`: true
when every variable bound by an initializer-less pattern binding that is not
a property has a default-initializable type (the source returns from the
whole function at the first failure). -/
def checkMembersDefaultInitializable : List Member → Bool
  | [] => true
  | Member.patternBindingM hasInit vars :: ms =>
    if hasInit then checkMembersDefaultInitializable ms
    else if vars.any (fun v =>
        !v.isProperty && (isDefaultInitializable v.ty).isNone) then
      false
    else checkMembersDefaultInitializable ms
  | _ :: ms => checkMembersDefaultInitializable ms

/-- The global type-checker state threaded through the deferred
default-constructor pass: the structs (keyed by an identity), the two
worklists (`structsNeedingImplicitDefaultConstructor` as a set,
`structsWithImplicitDefaultConstructor` as the iteration order), the queue
of implicitly-defined functions still needing bodies, and the diagnostics
emitted so far. -/
structure TCPassState where
  structs : List (Nat × StructD)
  structsNeedingImplicitDefaultConstructor : List Nat
  structsWithImplicitDefaultConstructor : List Nat
  implicitlyDefinedFunctions : List CtorD
  diags : List Diag

/-- Replace the struct stored under an identity. -/
def updateStruct : List (Nat × StructD) → Nat → StructD → List (Nat × StructD)
  | [], _, _ => []
  | (k, v) :: rest, sid, s =>
    if k = sid then (k, s) :: rest else (k, v) :: updateStruct rest sid s

/-- `TypeChecker::defineDefaultConstructor`: erase the struct from the
needing-set; if some initializer-less non-property stored variable is not
default-initializable, stop silently; otherwise create the implicit default
constructor, append it to the members, give it an empty body, and enqueue it
among the implicitly-defined functions. -/
def defineDefaultConstructor (sid : Nat) (st : TCPassState) : TCPassState :=
  let st1 := { st with
    structsNeedingImplicitDefaultConstructor :=
      st.structsNeedingImplicitDefaultConstructor.erase sid }
  match st.structs.lookup sid with
  | none => st1
  | some s =>
    if checkMembersDefaultInitializable s.members then
      let ctor0 := createImplicitConstructor s ImplicitConstructorKind.defaultK
      let ctor := { ctor0 with body := some [] }
      { st1 with
        structs := updateStruct st1.structs sid
          { members := s.members ++ [Member.ctorDeclM ctor] },
        implicitlyDefinedFunctions :=
          st1.implicitlyDefinedFunctions ++ [ctor] }
    else st1

/-- The iteration of `TypeChecker::definePendingImplicitDecls` over a
snapshot of `structsWithImplicitDefaultConstructor`. -/
def runPendingDefaultCtors : List Nat → TCPassState → TCPassState
  | [], st => st
  | sid :: rest, st =>
    runPendingDefaultCtors rest
      (if sid ∈ st.structsNeedingImplicitDefaultConstructor then
        defineDefaultConstructor sid st
      else st)

/-- `TypeChecker::definePendingImplicitDecls`: drain the pending
default-constructor worklist once. -/
def definePendingImplicitDecls (st : TCPassState) : TCPassState :=
  runPendingDefaultCtors st.structsWithImplicitDefaultConstructor st

/-- The outcome of the external type validator on one inheritance-clause
entry, as classified by `checkInheritanceClause`: an existential (protocol or
protocol-composition) type carrying its protocol list, a class type, an error
type, or some other type.  Each resolved type carries its canonical-type
identity `key`, used for the duplicate-inheritance check.  A failed
validation (`tc.validateType` returning true) is modelled by `none` at the
use site. -/
inductive RTy where
  | existR (key : Nat) (protos : List String)
  | classR (key : Nat) (name : String)
  | errR (key : Nat)
  | otherR (key : Nat) (name : String)
deriving DecidableEq, Repr

/-- The canonical-type identity of a resolved inheritance entry. -/
def RTy.key : RTy → Nat
  | .existR k _ => k
  | .classR k _ => k
  | .errR k => k
  | .otherR k _ => k

/-- The declaration kinds distinguished by `checkInheritanceClause`,
`alreadyCheckedInheritanceClause` and `canInheritClass`.  A type alias
carries `isGenericParameter` and whether its declaration context is a
protocol (the associated-type case). -/
inductive DKind where
  | classK
  | structK
  | unionK
  | protocolK
  | extensionK
  | typeAliasK (isGenericParameter : Bool) (inProtocolContext : Bool)
deriving DecidableEq, Repr

/-- A declaration as seen by the inheritance resolver and conformance
recorder: its kind, the resolved inheritance clause (one entry per written
type, `none` when the type validator failed on it), and the write-once
resolved fields (protocol list, superclass, conformance list). -/
structure IDecl where
  kind : DKind
  inherited : List (Option RTy)
  protocols : List String
  superclassF : Option String
  conformances : List (Option Nat)
deriving DecidableEq, Repr

/-- `canInheritClass`: classes can, and a type alias can when it is a
generic parameter. -/
def canInheritClass (k : DKind) : Bool :=
  match k with
  | .classK => true
  | .typeAliasK gp _ => gp
  | _ => false

/-- `alreadyCheckedInheritanceClause`: the "already checked" approximation
read off the emptiness of the write-once fields. -/
def alreadyCheckedInheritanceClause (d : IDecl) : Bool :=
  match d.kind with
  | .extensionK => !d.protocols.isEmpty
  | .classK => !d.protocols.isEmpty || d.superclassF.isSome
  | .structK => !d.protocols.isEmpty
  | .unionK => !d.protocols.isEmpty
  | .protocolK => !d.protocols.isEmpty
  | .typeAliasK gp _ => !d.protocols.isEmpty || (gp && d.superclassF.isSome)

/-- `llvm::SmallSetVector::insert`: append if not already present,
preserving insertion order. -/
def insertProto (ps : List String) (p : String) : List String :=
  if p ∈ ps then ps else ps ++ [p]

/-- Insert each protocol of an existential entry in order. -/
def insertProtos (ps : List String) (newPs : List String) : List String :=
  newPs.foldl insertProto ps

/-- The entry loop of `checkInheritanceClause`.  Arguments mirror the loop
state: remaining entries, the syntactic index `i`, the candidate superclass,
the protocol accumulator, the canonical types seen so far, and the
diagnostics emitted so far.  Returns the final
`(superclass, protocols, diagnostics)`. -/
def inhLoop (k : DKind) : List (Option RTy) → Nat → Option String →
    List String → List Nat → List Diag →
    Option String × List String × List Diag
  | [], _, sup, protos, _, diags => (sup, protos, diags)
  | none :: rest, i, sup, protos, seen, diags =>
    inhLoop k rest (i + 1) sup protos seen diags
  | some rty :: rest, i, sup, protos, seen, diags =>
    if rty.key ∈ seen then
      inhLoop k rest (i + 1) sup protos seen
        (diags ++ [Diag.duplicateInheritance rty.key])
    else
      match rty with
      | .existR key ps =>
        inhLoop k rest (i + 1) sup (insertProtos protos ps) (seen ++ [key])
          diags
      | .classR key name =>
        match sup with
        | some prev =>
          inhLoop k rest (i + 1) (some prev) protos (seen ++ [key])
            (diags ++ [Diag.multipleInheritance prev name])
        | none =>
          if !canInheritClass k then
            inhLoop k rest (i + 1) none protos (seen ++ [key])
              (diags ++ [if k = DKind.extensionK then
                Diag.extensionClassInheritance else Diag.nonClassInheritance])
          else if i > 0 then
            inhLoop k rest (i + 1) (some name) protos (seen ++ [key])
              (diags ++ [Diag.superclassNotFirst name])
          else
            inhLoop k rest (i + 1) (some name) protos (seen ++ [key]) diags
      | .errR key =>
        inhLoop k rest (i + 1) sup protos (seen ++ [key]) diags
      | .otherR key name =>
        inhLoop k rest (i + 1) sup protos (seen ++ [key])
          (diags ++ [if canInheritClass k then
            Diag.inheritanceFromNonProtocolOrClass
          else Diag.inheritanceFromNonProtocol])

/-- `checkInheritanceClause`: no-op if already checked; otherwise run the
entry loop and commit the merged protocol set, the superclass (classes and
generic-parameter type aliases only), and — for protocols, associated types
and generic parameters — a parallel array of null conformances sized to the
protocol set.  Returns the updated declaration and the diagnostics
emitted. -/
def checkInheritanceClause (d : IDecl) : IDecl × List Diag :=
  if alreadyCheckedInheritanceClause d then (d, [])
  else
    let (sup, protos, diags) := inhLoop d.kind d.inherited 0 none [] [] []
    if protos.isEmpty && sup.isNone then (d, diags)
    else
      match d.kind with
      | .extensionK => ({ d with protocols := protos }, diags)
      | _ =>
        let d1 := { d with protocols := protos }
        let d2 :=
          match sup, d1.kind with
          | some s, .classK => { d1 with superclassF := some s }
          | some s, .typeAliasK _ _ => { d1 with superclassF := some s }
          | _, _ => d1
        let d3 :=
          if (match d2.kind with
              | .protocolK => true
              | .typeAliasK gp inProto => inProto || gp
              | _ => false) then
            { d2 with conformances := List.replicate protos.length none }
          else d2
        (d3, diags)

/-- The inner protocol loop of `DeclChecker::gatherExplicitConformances`:
for each protocol of one existential entry, if not already known, ask the
external conformance checker (the `oracle`; `none` models a null
conformance) and record the `(protocol, conformance)` pair.  Returns the
pairs gathered from this entry and the updated known-protocol set. -/
def gatherFromProtos (oracle : String → Option Nat) :
    List String → List String → List (String × Option Nat) × List String
  | [], known => ([], known)
  | p :: ps, known =>
    if p ∈ known then gatherFromProtos oracle ps known
    else
      let (pairs, known') := gatherFromProtos oracle ps (known ++ [p])
      ((p, oracle p) :: pairs, known')

/-- The entry loop of `DeclChecker::gatherExplicitConformances`: only
existential entries contribute; the known-protocol set is threaded across
entries. -/
def gatherLoop (oracle : String → Option Nat) :
    List (Option RTy) → List String → List (String × Option Nat)
  | [], _ => []
  | entry :: rest, known =>
    match entry with
    | some (.existR _ ps) =>
      let (pairs, known') := gatherFromProtos oracle ps known
      pairs ++ gatherLoop oracle rest known'
    | _ => gatherLoop oracle rest known

/-- `DeclChecker::gatherExplicitConformances`: compute the
protocol/conformance pairs; keep the pre-populated protocol list when its
length already matches (the source asserts it is then equal), otherwise
overwrite it; always overwrite the conformance list. -/
def gatherExplicitConformances (oracle : String → Option Nat) (d : IDecl) :
    IDecl :=
  let pairs := gatherLoop oracle d.inherited []
  let allProtocols := pairs.map Prod.fst
  let allConformances := pairs.map Prod.snd
  let protos' :=
    if d.protocols.length = allProtocols.length then d.protocols
    else allProtocols
  { d with protocols := protos', conformances := allConformances }

/-- A protocol declaration, as inspected by the bridging propagation: its
name and whether it carries the `[objc]` attribute. -/
structure ProtoD where
  name : String
  objcAttr : Bool
deriving DecidableEq, Repr

mutual

/-- A (non-null) `ProtocolConformance`: its witness map, reduced to the list
of witness declarations (identified by name), and its inherited-protocol →
nested-conformance map. -/
inductive Conf where
  | mk (witnesses : List String) (inherited : InhConfList)

/-- The inherited-conformances map of a conformance: each entry pairs an
inherited protocol with its nested conformance, which may be null. -/
inductive InhConfList where
  | nilI
  | consNull (proto : ProtoD) (rest : InhConfList)
  | consConf (proto : ProtoD) (conf : Conf) (rest : InhConfList)

end

mutual

/-- The non-null case of `DeclChecker::checkObjCConformance`: if the
protocol is `[objc]`, mark every witness declaration as requiring ObjC
interop, then recurse into each inherited conformance.  Marking is modelled
by returning the list of declarations on which `setIsObjC(true)` is
called. -/
def checkObjCConformanceC : ProtoD → Conf → List String
  | p, .mk ws inh =>
    (if p.objcAttr then ws else []) ++ markInheritedConformances inh

/-- The recursion of `checkObjCConformance` over the inherited-conformances
map; a null nested conformance contributes nothing (the callee returns
immediately). -/
def markInheritedConformances : InhConfList → List String
  | .nilI => []
  | .consNull _ rest => markInheritedConformances rest
  | .consConf q c rest =>
    checkObjCConformanceC q c ++ markInheritedConformances rest

end

/-- `DeclChecker::checkObjCConformance`: a null conformance is skipped
without effect. -/
def checkObjCConformance (p : ProtoD) (c : Option Conf) : List String :=
  match c with
  | none => []
  | some c => checkObjCConformanceC p c

/-- `DeclChecker::checkObjCConformances`: walk the index-aligned
protocol/conformance lists. -/
def checkObjCConformances (protocols : List ProtoD)
    (conformances : List (Option Conf)) : List String :=
  (protocols.zip conformances).foldr
    (fun pc acc => checkObjCConformance pc.1 pc.2 ++ acc) []

/-- Membership of a `(protocol, non-null conformance)` entry in an
inherited-conformances map. -/
inductive InhMem : ProtoD → Conf → InhConfList → Prop where
  | headM (q c rest) : InhMem q c (.consConf q c rest)
  | tailNull (q c r rest) : InhMem q c rest → InhMem q c (.consNull r rest)
  | tailConf (q c r c' rest) :
      InhMem q c rest → InhMem q c (.consConf r c' rest)

/-- The declarations the bridging propagation is specified to mark, as a
relation: a witness of the conformance itself when its protocol is
bridgeable, or — transitively — a witness of a nested inherited-protocol
conformance reached through the conformance graph. -/
inductive MarksWitness : ProtoD → Conf → String → Prop where
  | here (p : ProtoD) (ws : List String) (inh : InhConfList) (w : String) :
      p.objcAttr = true → w ∈ ws → MarksWitness p (.mk ws inh) w
  | nested (p : ProtoD) (ws : List String) (inh : InhConfList)
      (q : ProtoD) (c : Conf) (w : String) :
      InhMem q c inh → MarksWitness q c w → MarksWitness p (.mk ws inh) w

/-- The ownership attribute carried by `[weak]`/`[unowned]`; the source
asserts exactly one of the two is set when `hasOwnership()`. -/
inductive OwnershipKind where
  | unownedO
  | weakO
deriving DecidableEq, Repr

/-- The diagnostics argument for an ownership kind (the source casts the
enum; its comment documents 0 = unowned, 1 = weak). -/
def ownershipKindNum : OwnershipKind → Nat
  | .unownedO => 0
  | .weakO => 1

/-- The declaration attribute set inspected and mutated by
`DeclChecker::validateAttributes`.  `isInfixAttr` models `isInfix()`,
`explicitPostfixA` models the `ExplicitPostfix` bit read by `isPostfix()`,
and `explicitPrefixA` the bit read by `isPrefix()`. -/
structure DAttrs where
  objcA : Bool
  ownership : Option OwnershipKind
  iboutletA : Bool
  ibactionA : Bool
  isInfixAttr : Bool
  explicitPostfixA : Bool
  explicitPrefixA : Bool
  assignmentA : Bool
  conversionA : Bool
  forceInlineA : Bool
  byrefA : Bool
  autoClosureA : Bool
  objcBlockA : Bool
  classProtocolA : Bool
  hasCCA : Bool
  thinA : Bool
  noReturnA : Bool
deriving DecidableEq, Repr

/-- A value declaration as inspected by `validateAttributes`: its attribute
set plus the kind/shape/context predicates the checks consult.  Predicates
computed from the declaration's type (`NumArguments`, lvalue-ness of the
first parameter, emptiness of the IBAction result, the all-defaulted test of
the conversion input tuple, ownership admissibility) are carried as fields,
standing for the external type queries.  `tyWrappedOwnership` records the
`overwriteType(ReferenceStorageType::get(...))` rewrite. -/
structure VDeclM where
  attrs : DAttrs
  isFuncD : Bool
  isVarD : Bool
  isClassDeclD : Bool
  isProtocolDeclD : Bool
  isOperatorD : Bool
  isUnaryOp : Bool
  isBinaryOp : Bool
  nameIsAddressOf : Bool
  inClassContext : Bool
  declContextIsClassDecl : Bool
  isStaticD : Bool
  isGetterOrSetterD : Bool
  isInstanceMemberD : Bool
  protocolRequiresClass : Bool
  typeAllowsOwnership : Bool
  typeIsOpaque : Bool
  typeIsError : Bool
  resultIsEmptyTuple : Bool
  numArguments : Int
  firstParamIsLValue : Bool
  conversionInputAllDefaulted : Bool
  numParamPatterns : Nat
  hasGenericParamsD : Bool
  tyWrappedOwnership : Bool
deriving DecidableEq, Repr

/-- The `[objc]` precondition of `validateAttributes`: returns the error
diagnostic when the attribute is not allowed on this declaration. -/
def objcAttrError (vd : VDeclM) : Option Diag :=
  if vd.isClassDeclD then none
  else if vd.isFuncD && vd.inClassContext then
    if vd.isOperatorD then some Diag.invalidObjCDecl else none
  else if vd.isVarD && vd.inClassContext then none
  else if vd.isProtocolDeclD then
    if !vd.protocolRequiresClass then some Diag.objcProtocolNotClassProtocol
    else none
  else some Diag.invalidObjCDecl

/-- The tail of `validateAttributes` from the `[assignment]` check on: these
checks diagnose and clear on violation and fall through to the next
attribute (no early returns). -/
def validateAttrsTail (vd : VDeclM) (diags : List Diag) :
    VDeclM × List Diag :=
  let (vd, diags) :=
    if vd.attrs.assignmentA then
      if !(vd.isFuncD && vd.isOperatorD) then
        ({ vd with attrs.assignmentA := false },
         diags ++ [Diag.invalidDeclAttribute "assignment"])
      else if vd.numArguments < 1 then
        ({ vd with attrs.assignmentA := false },
         diags ++ [Diag.assignmentWithoutByref])
      else if !vd.firstParamIsLValue then
        ({ vd with attrs.assignmentA := false },
         diags ++ [Diag.assignmentWithoutByref])
      else (vd, diags)
    else (vd, diags)
  let (vd, diags) :=
    if vd.attrs.conversionA then
      if !(vd.isFuncD && vd.isInstanceMemberD) then
        ({ vd with attrs.conversionA := false },
         diags ++ [Diag.conversionNotInstanceMethod])
      else if !vd.typeIsError then
        if !vd.conversionInputAllDefaulted then
          ({ vd with attrs.conversionA := false },
           diags ++ [Diag.conversionParams])
        else (vd, diags)
      else (vd, diags)
    else (vd, diags)
  let (vd, diags) :=
    if vd.attrs.forceInlineA then
      if !vd.isFuncD then
        ({ vd with attrs.forceInlineA := false },
         diags ++ [Diag.forceInlineNotFunction])
      else if vd.numParamPatterns > 1 then
        ({ vd with attrs.forceInlineA := false },
         diags ++ [Diag.forceInlineCurryNotSupported])
      else if vd.hasGenericParamsD then
        ({ vd with attrs.forceInlineA := false },
         diags ++ [Diag.forceInlineGenericNotSupported])
      else (vd, diags)
    else (vd, diags)
  let (vd, diags) :=
    if vd.attrs.byrefA then
      ({ vd with attrs.byrefA := false },
       diags ++ [Diag.invalidDeclAttribute "byref"])
    else (vd, diags)
  let (vd, diags) :=
    if vd.attrs.autoClosureA then
      ({ vd with attrs.autoClosureA := false },
       diags ++ [Diag.invalidDeclAttribute "auto_closure"])
    else (vd, diags)
  let (vd, diags) :=
    if vd.attrs.objcBlockA then
      ({ vd with attrs.objcBlockA := false },
       diags ++ [Diag.invalidDeclAttribute "objc_block"])
    else (vd, diags)
  let (vd, diags) :=
    if vd.attrs.classProtocolA && !vd.isProtocolDeclD then
      ({ vd with attrs.classProtocolA := false },
       diags ++ [Diag.classProtocolNotProtocol])
    else (vd, diags)
  let (vd, diags) :=
    if vd.attrs.hasCCA then
      ({ vd with attrs.hasCCA := false },
       diags ++ [Diag.invalidDeclAttribute "cc"])
    else (vd, diags)
  let (vd, diags) :=
    if vd.attrs.thinA then
      ({ vd with attrs.thinA := false },
       diags ++ [Diag.invalidDeclAttribute "thin"])
    else (vd, diags)
  let (vd, diags) :=
    if vd.attrs.noReturnA then
      ({ vd with attrs.noReturnA := false },
       diags ++ [Diag.invalidDeclAttribute "noreturn"])
    else (vd, diags)
  (vd, diags)

/-- The checks of `validateAttributes` from `[iboutlet]` through the fixity
attributes, each of which returns early on violation. -/
def validateAttrsAfterOwnership (vd : VDeclM) (diags : List Diag) :
    VDeclM × List Diag :=
  -- [iboutlet]
  if vd.attrs.iboutletA && !(vd.isVarD && vd.inClassContext) then
    ({ vd with attrs.iboutletA := false }, diags ++ [Diag.invalidIBOutlet])
  -- [ibaction]
  else if vd.attrs.ibactionA &&
      (!vd.isFuncD || !vd.declContextIsClassDecl || vd.isStaticD ||
        vd.isGetterOrSetterD) then
    ({ vd with attrs.ibactionA := false }, diags ++ [Diag.invalidIBActionDecl])
  else if vd.attrs.ibactionA && !vd.resultIsEmptyTuple then
    ({ vd with attrs.ibactionA := false },
     diags ++ [Diag.invalidIBActionResult])
  -- [infix]: both violation paths diagnose and return WITHOUT clearing.
  else if vd.attrs.isInfixAttr && !vd.isOperatorD then
    (vd, diags ++ [Diag.infixNotAnOperator])
  else if vd.attrs.isInfixAttr && !(vd.isFuncD && vd.isBinaryOp) then
    (vd, diags ++ [Diag.invalidInfixInput])
  -- [postfix]
  else if vd.attrs.explicitPostfixA && !vd.isOperatorD then
    ({ vd with attrs.explicitPostfixA := false },
     diags ++ [Diag.postfixNotAnOperator])
  else if vd.attrs.explicitPostfixA && !(vd.isFuncD && vd.isUnaryOp) then
    ({ vd with attrs.explicitPostfixA := false },
     diags ++ [Diag.invalidPostfixInput])
  -- [prefix]: the source clears ExplicitPostfix here, not ExplicitPrefix.
  else if vd.attrs.explicitPrefixA && !vd.isOperatorD then
    ({ vd with attrs.explicitPostfixA := false },
     diags ++ [Diag.prefixNotAnOperator])
  else if vd.attrs.explicitPrefixA && !(vd.isFuncD && vd.isUnaryOp) then
    ({ vd with attrs.explicitPostfixA := false },
     diags ++ [Diag.invalidPrefixInput])
  else validateAttrsTail vd diags
/-- `DeclChecker::validateAttributes`, transcribed check by check in source
order.  Early `return`s of the source are terminal tuples here; the
remaining checks are chained through `validateAttrsTail`. -/
def validateAttributes (vd : VDeclM) : VDeclM × List Diag :=
  -- Operators must be declared with 'func', not 'var'.
  if vd.isOperatorD && !vd.isFuncD then (vd, [Diag.operatorNotFunc])
  -- The unary prefix operator '&' is reserved.
  else if vd.isOperatorD && vd.isUnaryOp && vd.nameIsAddressOf &&
      !vd.attrs.explicitPostfixA then
    (vd, [Diag.customOperatorAddressof])
  else
    -- [objc]
    match (if vd.attrs.objcA then objcAttrError vd else none) with
    | some e => ({ vd with attrs.objcA := false }, [e])
    | none =>
      -- ownership ([weak]/[unowned])
      match vd.attrs.ownership with
      | some ok =>
        if !vd.isVarD then
          ({ vd with attrs.ownership := none },
           [Diag.invalidOwnershipDecl (ownershipKindNum ok)])
        else if !vd.typeAllowsOwnership then
          if vd.typeIsOpaque then
            ({ vd with attrs.ownership := none },
             [Diag.invalidOwnershipOpaqueType (ownershipKindNum ok)])
          else
            ({ vd with attrs.ownership := none },
             [Diag.invalidOwnershipType (ownershipKindNum ok)])
        else
          validateAttrsAfterOwnership { vd with tyWrappedOwnership := true } []
      | none => validateAttrsAfterOwnership vd []


/-- Patterns, as far as `isPatternProperty` and the pattern-binding path
inspect them: a named variable pattern (recording whether the variable is a
property), the sugar wrappers stripped by `getSemanticsProvidingPattern`,
and the remaining kinds collapsed. -/
inductive Pat where
  | namedP (isProperty : Bool)
  | typedP (sub : Pat)
  | parenP (sub : Pat)
  | varP (sub : Pat)
  | otherP
deriving DecidableEq, Repr

/-- `Pattern::getSemanticsProvidingPattern` (AST accessor consumed by
`isPatternProperty`): strips the paren/typed/var sugar wrappers. -/
def getSemanticsProvidingPattern : Pat → Pat
  | .parenP s => getSemanticsProvidingPattern s
  | .typedP s => getSemanticsProvidingPattern s
  | .varP s => getSemanticsProvidingPattern s
  | p => p

/-- `isPatternProperty`: the pattern contains only a single variable that is
a property. -/
def isPatternProperty (p : Pat) : Bool :=
  match getSemanticsProvidingPattern p with
  | .namedP isProp => isProp
  | _ => false

/-- Whether the pattern is syntactically a `TypedPattern`
(`isa<TypedPattern>`). -/
def isTypedPattern : Pat → Bool
  | .typedP _ => true
  | _ => false

/-- A pattern binding declaration, as far as the no-initializer path
inspects and mutates it: its initializer (holding the synthesized witness
once `setInit` runs), its pattern, and its invalid flag. -/
structure PBDm where
  init : Option Expr
  pattern : Pat
  invalid : Bool

/-- The no-initializer branch of `DeclChecker::visitPatternBindingDecl`
(the `!PBD->getInit() && !IsFirstPass && isa<TypedPattern> && !isTypeContext`
arm): type-check the pattern (`tcPatternOk` and `patTy` stand for the
external pattern checker's outcome); a property pattern is left alone;
otherwise a non-default-initializable type is diagnosed and the binding
marked invalid; otherwise the witness is checked against the declared type
(`tcExprOk`) and installed as the initializer.  Inputs that do not satisfy
the branch guard are returned unchanged (the other arms of the visitor are
outside this model). -/
def defaultInitPatternBindingBranch (isFirstPass : Bool)
    (isTypeContext : Bool) (tcPatternOk : Bool) (patTy : Ty)
    (tcExprOk : Bool) (pbd : PBDm) : PBDm × List Diag :=
  if pbd.init.isNone && !isFirstPass && isTypedPattern pbd.pattern &&
      !isTypeContext then
    if !tcPatternOk then (pbd, [])
    else if isPatternProperty pbd.pattern then
      -- Properties don't have initializers.
      (pbd, [])
    else
      match isDefaultInitializable patTy with
      | none =>
        ({ pbd with invalid := true }, [Diag.declNoDefaultInit])
      | some w =>
        if !tcExprOk then (pbd, [Diag.whileConvertingVarInit])
        else ({ pbd with init := some w }, [])
  else (pbd, [])

/-! ## Helper lemmas and claim theorems -/

/-- The claim-side phrasing of "accepts an empty argument list": a
constructor every parameter of whose tuple has a default initializer. -/
def acceptsEmptyArgList : CtorMember → Bool
  | .ctorM paramHasInit => paramHasInit.all (fun b => b)
  | _ => false

theorem acceptsEmptyArgList_eq (m : CtorMember) :
    acceptsEmptyArgList m = ctorAcceptsEmpty m := by
  cases m with
  | ctorM ps =>
    simp [acceptsEmptyArgList, ctorAcceptsEmpty, List.all_eq_not_any_not]
  | notCtor => rfl
  | ctorNonTupleArg => rfl

theorem findDefaultConstructor_spec (ms : List CtorMember) :
    ∀ b : Bool, findDefaultConstructor ms b = true ↔
      ((b = true ∧ ms.countP acceptsEmptyArgList = 0) ∨
       (b = false ∧ ms.countP acceptsEmptyArgList = 1)) := by
  induction ms with
  | nil =>
    intro b
    cases b <;> simp [findDefaultConstructor]
  | cons m ms ih =>
    intro b
    cases m with
    | notCtor =>
      simpa [findDefaultConstructor, List.countP_cons,
        acceptsEmptyArgList] using ih b
    | ctorNonTupleArg =>
      simpa [findDefaultConstructor, List.countP_cons,
        acceptsEmptyArgList] using ih b
    | ctorM ps =>
      by_cases hps : ps.any (fun b => !b) = true
      · have hacc : acceptsEmptyArgList (CtorMember.ctorM ps) = false := by
          simp [acceptsEmptyArgList, List.all_eq_not_any_not, hps]
        simpa [findDefaultConstructor, hps, List.countP_cons, hacc] using ih b
      · have hacc : acceptsEmptyArgList (CtorMember.ctorM ps) = true := by
          simp [acceptsEmptyArgList, List.all_eq_not_any_not,
            Bool.not_eq_true] at hps ⊢
          simp [hps]
        cases b with
        | true =>
          simp [findDefaultConstructor, hps, List.countP_cons, hacc]
        | false =>
          simp [findDefaultConstructor, hps, List.countP_cons, hacc, ih true]

theorem lookupDefaultConstructor_spec (cs : Option (List CtorMember))
    (ty : Ty) :
    ((lookupDefaultConstructor cs ty).isSome ↔
      (cs.getD []).countP acceptsEmptyArgList = 1) ∧
    ((cs.getD []).countP acceptsEmptyArgList = 1 →
      lookupDefaultConstructor cs ty =
        some (Expr.callE (Expr.metatypeE ty) (Expr.tupleE [] []))) := by
  cases cs with
  | none => simp [lookupDefaultConstructor]
  | some ms =>
    have h := findDefaultConstructor_spec ms false
    simp only [Option.getD_some]
    constructor
    · by_cases hf : findDefaultConstructor ms false = true
      · simp [lookupDefaultConstructor, hf]
        rcases h.1 hf with ⟨h1, _⟩ | ⟨_, h2⟩
        · cases h1
        · exact h2
      · simp [lookupDefaultConstructor, hf]
        intro hc
        exact hf (h.2 (Or.inr ⟨rfl, hc⟩))
    · intro hc
      have hf : findDefaultConstructor ms false = true :=
        h.2 (Or.inr ⟨rfl, hc⟩)
      simp [lookupDefaultConstructor, hf]

/-- The kinds of canonical type that fall through the `switch` of
`isDefaultInitializable` to constructor lookup. -/
def isCtorLookupKind : Ty → Bool
  | .archetype _ => true
  | .boundGenericStruct _ => true
  | .boundGenericUnion _ => true
  | .unionT _ => true
  | .structT _ => true
  | _ => false

/-- The constructor list the external lookup returns for such a type. -/
def tyCtors : Ty → Option (List CtorMember)
  | .archetype cs => cs
  | .boundGenericStruct cs => cs
  | .boundGenericUnion cs => cs
  | .unionT cs => cs
  | .structT cs => cs
  | _ => none

/-- C3: for every nominal type of archetype, struct, union, or
bound-generic-struct/union kind, default-initializability holds iff exactly
one visible constructor accepts an empty argument list (every parameter of
its tuple has a default initializer) — zero and more than one both fail —
and on success the witness is a call of the type's constructor with an empty
tuple argument. -/
theorem isDefaultInitializable_nominal_spec (ty : Ty)
    (h : isCtorLookupKind ty = true) :
    ((isDefaultInitializable ty).isSome ↔
      ((tyCtors ty).getD []).countP acceptsEmptyArgList = 1) ∧
    (((tyCtors ty).getD []).countP acceptsEmptyArgList = 1 →
      isDefaultInitializable ty =
        some (Expr.callE (Expr.metatypeE ty) (Expr.tupleE [] []))) := by
  cases ty with
  | archetype cs =>
    simpa [isDefaultInitializable, tyCtors] using
      lookupDefaultConstructor_spec cs (Ty.archetype cs)
  | boundGenericStruct cs =>
    simpa [isDefaultInitializable, tyCtors] using
      lookupDefaultConstructor_spec cs (Ty.boundGenericStruct cs)
  | boundGenericUnion cs =>
    simpa [isDefaultInitializable, tyCtors] using
      lookupDefaultConstructor_spec cs (Ty.boundGenericUnion cs)
  | unionT cs =>
    simpa [isDefaultInitializable, tyCtors] using
      lookupDefaultConstructor_spec cs (Ty.unionT cs)
  | structT cs =>
    simpa [isDefaultInitializable, tyCtors] using
      lookupDefaultConstructor_spec cs (Ty.structT cs)
  | arrayT e => simp [isCtorLookupKind] at h
  | tupleT fields => simp [isCtorLookupKind] at h
  | referenceStorage r => simp [isCtorLookupKind] at h
  | boundGenericClass => simp [isCtorLookupKind] at h
  | classT => simp [isCtorLookupKind] at h
  | protocolT => simp [isCtorLookupKind] at h
  | protocolComposition => simp [isCtorLookupKind] at h
  | builtinFloat => simp [isCtorLookupKind] at h
  | builtinInteger => simp [isCtorLookupKind] at h
  | builtinObjCPointer => simp [isCtorLookupKind] at h
  | builtinObjectPointer => simp [isCtorLookupKind] at h
  | builtinRawPointer => simp [isCtorLookupKind] at h
  | builtinVector => simp [isCtorLookupKind] at h
  | functionT => simp [isCtorLookupKind] at h
  | lvalueT => simp [isCtorLookupKind] at h
  | polymorphicFunction => simp [isCtorLookupKind] at h
  | metaTypeT => simp [isCtorLookupKind] at h
  | moduleT => simp [isCtorLookupKind] at h
  | errorT => simp [isCtorLookupKind] at h

theorem tupleFieldInits_isSome : ∀ fields : TFields,
    (tupleFieldInits fields).isSome = true ↔
      ∀ p ∈ fields.toList, (isDefaultInitializable p.2).isSome = true
  | .nilF => by simp [tupleFieldInits, TFields.toList]
  | .consF n t rest => by
    have ih := tupleFieldInits_isSome rest
    cases hdi : isDefaultInitializable t with
    | none =>
      simp only [tupleFieldInits, hdi, Option.isSome_none,
        Bool.false_eq_true, false_iff, TFields.toList, List.mem_cons]
      intro hall
      have := hall (n, t) (Or.inl rfl)
      simp [hdi] at this
    | some e =>
      cases hrest : tupleFieldInits rest with
      | none =>
        simp only [hrest, Option.isSome_none, Bool.false_eq_true,
          false_iff] at ih
        simp only [tupleFieldInits, hdi, hrest, Option.isSome_none,
          Bool.false_eq_true, false_iff, TFields.toList, List.mem_cons]
        intro hall
        exact ih (fun p hp => hall p (Or.inr hp))
      | some pairs =>
        simp only [hrest, Option.isSome_some, true_iff] at ih
        simp only [tupleFieldInits, hdi, hrest, Option.isSome_some,
          true_iff, TFields.toList, List.mem_cons]
        rintro p (rfl | hp)
        · simp [hdi]
        · exact ih p hp

theorem tupleFieldInits_eq_some : ∀ (fields : TFields)
    (pairs : List (String × Expr)), tupleFieldInits fields = some pairs →
    List.Forall₂ (fun (f : String × Ty) (q : String × Expr) =>
      f.1 = q.1 ∧ isDefaultInitializable f.2 = some q.2)
      fields.toList pairs
  | .nilF, pairs, h => by
    simp only [tupleFieldInits, Option.some.injEq] at h
    subst h
    exact List.Forall₂.nil
  | .consF n t rest, pairs, h => by
    have ih := tupleFieldInits_eq_some rest
    cases hdi : isDefaultInitializable t with
    | none => simp [tupleFieldInits, hdi] at h
    | some e =>
      cases hrest : tupleFieldInits rest with
      | none => simp [tupleFieldInits, hdi, hrest] at h
      | some ps =>
        simp only [tupleFieldInits, hdi, hrest, Option.some.injEq] at h
        subst h
        exact List.Forall₂.cons ⟨rfl, hdi⟩ (ih ps hrest)

/-- C4: a tuple type is default-initializable iff every element's type is;
on success the per-element witnesses line up with the elements (same names,
each the element's own witness) and the tuple witness is their
`collapseTupleWitness` (the tuple of witnesses, collapsed to the sole
witness when there is exactly one unnamed element); protocol and
protocol-composition types are never default-initializable. -/
theorem isDefaultInitializable_tuple_protocol_spec :
    (∀ fields : TFields,
      (isDefaultInitializable (Ty.tupleT fields)).isSome = true ↔
        ∀ p ∈ fields.toList, (isDefaultInitializable p.2).isSome = true) ∧
    (∀ (fields : TFields) (pairs : List (String × Expr)),
      tupleFieldInits fields = some pairs →
      List.Forall₂ (fun (f : String × Ty) (q : String × Expr) =>
        f.1 = q.1 ∧ isDefaultInitializable f.2 = some q.2)
        fields.toList pairs ∧
      isDefaultInitializable (Ty.tupleT fields) =
        some (collapseTupleWitness pairs)) ∧
    isDefaultInitializable Ty.protocolT = none ∧
    isDefaultInitializable Ty.protocolComposition = none := by
  refine ⟨?_, ?_, ?_, ?_⟩
  · intro fields
    rw [← tupleFieldInits_isSome]
    cases h : tupleFieldInits fields <;>
      simp [isDefaultInitializable, h]
  · intro fields pairs h
    exact ⟨tupleFieldInits_eq_some fields pairs h,
      by simp [isDefaultInitializable, h]⟩
  · simp [isDefaultInitializable]
  · simp [isDefaultInitializable]

/-- Witness for C4 at the concrete tuple type `(builtinInteger)` with one
anonymous element: evaluating the second conjunct at it. -/
theorem isDefaultInitializable_tuple_protocol_spec_witness :
    List.Forall₂ (fun (f : String × Ty) (q : String × Expr) =>
      f.1 = q.1 ∧ isDefaultInitializable f.2 = some q.2)
      (TFields.consF "" Ty.builtinInteger TFields.nilF).toList
      [("", Expr.zeroValue Ty.builtinInteger)] ∧
    isDefaultInitializable
        (Ty.tupleT (TFields.consF "" Ty.builtinInteger TFields.nilF)) =
      some (collapseTupleWitness [("", Expr.zeroValue Ty.builtinInteger)]) :=
  isDefaultInitializable_tuple_protocol_spec.2.1
    (TFields.consF "" Ty.builtinInteger TFields.nilF)
    [("", Expr.zeroValue Ty.builtinInteger)]
    (by simp [tupleFieldInits, isDefaultInitializable])

/-- Witness for C3 at a concrete struct type with exactly one constructor
callable with an empty argument list. -/
theorem isDefaultInitializable_nominal_spec_witness :
    ((isDefaultInitializable
        (Ty.structT (some [CtorMember.ctorM [true]]))).isSome ↔
      ((tyCtors (Ty.structT (some [CtorMember.ctorM [true]]))).getD
        []).countP acceptsEmptyArgList = 1) ∧
    (((tyCtors (Ty.structT (some [CtorMember.ctorM [true]]))).getD
        []).countP acceptsEmptyArgList = 1 →
      isDefaultInitializable (Ty.structT (some [CtorMember.ctorM [true]])) =
        some (Expr.callE
          (Expr.metatypeE (Ty.structT (some [CtorMember.ctorM [true]])))
          (Expr.tupleE [] []))) :=
  isDefaultInitializable_nominal_spec
    (Ty.structT (some [CtorMember.ctorM [true]])) rfl

/-- Whether a member is a constructor declaration
(`isa<ConstructorDecl>`). -/
def isCtorMemberB : Member → Bool
  | .ctorDeclM _ => true
  | _ => false

theorem findCtorAndVar_fst : ∀ (ms : List Member) (b : Bool),
    (findCtorAndVar ms b).1 = ms.any isCtorMemberB
  | [], b => by simp [findCtorAndVar]
  | m :: ms, b => by
    cases m with
    | ctorDeclM c => simp [findCtorAndVar, isCtorMemberB]
    | varM v => simp [findCtorAndVar, isCtorMemberB, findCtorAndVar_fst ms]
    | patternBindingM hi vs =>
      simp [findCtorAndVar, isCtorMemberB, findCtorAndVar_fst ms]
    | otherM => simp [findCtorAndVar, isCtorMemberB, findCtorAndVar_fst ms]

/-- The stored (non-computed, non-property) members of a struct, in
declaration order: the claim-side description of which members get
memberwise-constructor parameters. -/
def storedVars (s : StructD) : List StoredVar :=
  s.members.filterMap fun m =>
    match m with
    | .varM v => if v.isProperty then none else some v
    | _ => none

theorem memberwiseParams_eq : ∀ ms : List Member,
    (ms.filterMap fun m =>
      match m with
      | .varM v => if v.isProperty then none else some (v.name, v.ty)
      | _ => none) =
    ((ms.filterMap fun m =>
      match m with
      | .varM v => if v.isProperty then none else some v
      | _ => none).map fun v => (v.name, v.ty))
  | [] => rfl
  | m :: ms => by
    cases m with
    | varM v =>
      by_cases hp : v.isProperty = true <;>
        simp [List.filterMap_cons, hp, memberwiseParams_eq ms]
    | ctorDeclM c => simp [List.filterMap_cons, memberwiseParams_eq ms]
    | patternBindingM hi vs =>
      simp [List.filterMap_cons, memberwiseParams_eq ms]
    | otherM => simp [List.filterMap_cons, memberwiseParams_eq ms]

/-- C2: during the structural pass, a struct with no user-declared
constructor gains exactly one implicit memberwise constructor, appended to
its members, whose parameter tuple has one identically-named,
identically-typed parameter per stored member in declaration order; a
struct with a user-declared constructor gains nothing. -/
theorem addImplicitConstructors_memberwise_spec (s : StructD) :
    (s.members.any isCtorMemberB = false →
      (addImplicitConstructors s).1.members =
        s.members ++ [Member.ctorDeclM
          { params := (storedVars s).map fun v => (v.name, v.ty),
            implicit := true, body := none }] ∧
      ((addImplicitConstructors s).1.members.countP isCtorMemberB) = 1) ∧
    (s.members.any isCtorMemberB = true →
      (addImplicitConstructors s).1 = s) := by
  rcases hfv : findCtorAndVar s.members false with ⟨foundC, foundV⟩
  have hfst : foundC = s.members.any isCtorMemberB := by
    have := findCtorAndVar_fst s.members false
    rw [hfv] at this
    exact this
  constructor
  · intro hno
    rw [hno] at hfst
    have hparams :
        (createImplicitConstructor s ImplicitConstructorKind.memberwiseK).params
          = (storedVars s).map fun v => (v.name, v.ty) := by
      simp only [createImplicitConstructor, storedVars]
      exact memberwiseParams_eq s.members
    have hcount : s.members.countP isCtorMemberB = 0 := by
      rw [List.countP_eq_zero]
      intro a ha
      have := (List.any_eq_false.mp hno) a ha
      simpa using this
    constructor
    · simp only [addImplicitConstructors, hfv, hfst, cond_false, if_false,
        Bool.false_eq_true]
      congr 2
      cases hc : createImplicitConstructor s ImplicitConstructorKind.memberwiseK
      rw [hc] at hparams
      simp only at hparams
      subst hparams
      have : (createImplicitConstructor s
          ImplicitConstructorKind.memberwiseK).implicit = true := rfl
      rw [hc] at this
      have hbody : (createImplicitConstructor s
          ImplicitConstructorKind.memberwiseK).body = none := rfl
      rw [hc] at hbody
      simp only at this hbody
      subst this
      subst hbody
      rfl
    · simp only [addImplicitConstructors, hfv, hfst, Bool.false_eq_true,
        if_false]
      rw [List.countP_append, hcount]
      simp [isCtorMemberB]
  · intro hyes
    rw [hyes] at hfst
    simp [addImplicitConstructors, hfv, hfst]

/-- Witness for C2 at a concrete struct with stored members
`x : builtinInteger, y : builtinInteger` and no user constructor. -/
theorem addImplicitConstructors_memberwise_spec_witness :
    (StructD.mk [Member.varM ⟨⟨"x", Ty.builtinInteger⟩, false⟩,
      Member.varM ⟨⟨"y", Ty.builtinInteger⟩, false⟩]).members.any
        isCtorMemberB = false ∧
    ((addImplicitConstructors (StructD.mk
      [Member.varM ⟨⟨"x", Ty.builtinInteger⟩, false⟩,
       Member.varM ⟨⟨"y", Ty.builtinInteger⟩, false⟩])).1.members =
      [Member.varM ⟨⟨"x", Ty.builtinInteger⟩, false⟩,
       Member.varM ⟨⟨"y", Ty.builtinInteger⟩, false⟩] ++
      [Member.ctorDeclM
        { params := [("x", Ty.builtinInteger), ("y", Ty.builtinInteger)],
          implicit := true, body := none }] ∧
     ((addImplicitConstructors (StructD.mk
      [Member.varM ⟨⟨"x", Ty.builtinInteger⟩, false⟩,
       Member.varM ⟨⟨"y", Ty.builtinInteger⟩, false⟩])).1.members.countP
        isCtorMemberB) = 1) :=
  ⟨rfl,
    (addImplicitConstructors_memberwise_spec _).1 rfl⟩

/-- The claim-side condition blocking default-constructor synthesis: an
initializer-less pattern binding one of whose bound non-property variables
has a non-default-initializable type. -/
def memberBlocksDefaultCtor : Member → Bool
  | .patternBindingM hasInit vars =>
    !hasInit && vars.any fun v =>
      !v.isProperty && (isDefaultInitializable v.ty).isNone
  | _ => false

theorem checkMembersDefaultInitializable_eq : ∀ ms : List Member,
    checkMembersDefaultInitializable ms = !(ms.any memberBlocksDefaultCtor)
  | [] => rfl
  | Member.patternBindingM hasInit vars :: ms => by
    cases hasInit with
    | true =>
      simp [checkMembersDefaultInitializable, memberBlocksDefaultCtor,
        checkMembersDefaultInitializable_eq ms]
    | false =>
      by_cases hv : (vars.any fun v =>
          !v.isProperty && (isDefaultInitializable v.ty).isNone) = true <;>
        simp [checkMembersDefaultInitializable, memberBlocksDefaultCtor, hv,
          checkMembersDefaultInitializable_eq ms]
  | Member.varM v :: ms => by
    simp [checkMembersDefaultInitializable, memberBlocksDefaultCtor,
      checkMembersDefaultInitializable_eq ms]
  | Member.ctorDeclM c :: ms => by
    simp [checkMembersDefaultInitializable, memberBlocksDefaultCtor,
      checkMembersDefaultInitializable_eq ms]
  | Member.otherM :: ms => by
    simp [checkMembersDefaultInitializable, memberBlocksDefaultCtor,
      checkMembersDefaultInitializable_eq ms]

theorem lookup_updateStruct : ∀ (l : List (Nat × StructD)) (sid : Nat)
    (s s' : StructD), l.lookup sid = some s →
    (updateStruct l sid s').lookup sid = some s'
  | [], sid, s, s', h => by simp [List.lookup] at h
  | (k, v) :: rest, sid, s, s', h => by
    by_cases hk : k = sid
    · subst hk
      simp [updateStruct, List.lookup]
    · have hbeq : (sid == k) = false := by
        simp only [beq_eq_false_iff_ne, ne_eq]
        omega
      simp only [List.lookup, hbeq] at h
      simp only [updateStruct, if_neg hk, List.lookup, hbeq]
      exact lookup_updateStruct rest sid s s' h

/-- C1: during the final whole-program pass
(`definePendingImplicitDecls`), a pending struct with an initializer-less
stored member of non-default-initializable type gets no default
constructor and no diagnostic; otherwise exactly one zero-argument
constructor with an empty body is appended to its members and enqueued
among the implicitly-defined functions. -/
theorem definePendingImplicitDecls_spec (st : TCPassState) (sid : Nat)
    (s : StructD)
    (hpend : st.structsWithImplicitDefaultConstructor = [sid])
    (hneed : sid ∈ st.structsNeedingImplicitDefaultConstructor)
    (hs : st.structs.lookup sid = some s) :
    (s.members.any memberBlocksDefaultCtor = true →
      (definePendingImplicitDecls st).structs = st.structs ∧
      (definePendingImplicitDecls st).implicitlyDefinedFunctions =
        st.implicitlyDefinedFunctions ∧
      (definePendingImplicitDecls st).diags = st.diags) ∧
    (s.members.any memberBlocksDefaultCtor = false →
      (definePendingImplicitDecls st).structs.lookup sid =
        some { members := s.members ++ [Member.ctorDeclM
          { params := [], implicit := true, body := some [] }] } ∧
      (definePendingImplicitDecls st).implicitlyDefinedFunctions =
        st.implicitlyDefinedFunctions ++
          [{ params := [], implicit := true, body := some [] }] ∧
      (definePendingImplicitDecls st).diags = st.diags) := by
  have hrun : definePendingImplicitDecls st = defineDefaultConstructor sid st := by
    simp [definePendingImplicitDecls, hpend, runPendingDefaultCtors, hneed]
  have hcheck := checkMembersDefaultInitializable_eq s.members
  constructor
  · intro hblock
    rw [hblock] at hcheck
    simp only [Bool.not_true] at hcheck
    rw [hrun]
    simp [defineDefaultConstructor, hs, hcheck]
  · intro hok
    rw [hok] at hcheck
    simp only [Bool.not_false] at hcheck
    rw [hrun]
    have hctor : createImplicitConstructor s ImplicitConstructorKind.defaultK
        = { params := [], implicit := true, body := none } := rfl
    refine ⟨?_, ?_, ?_⟩
    · simp only [defineDefaultConstructor, hs, hcheck, if_true, hctor]
      exact lookup_updateStruct st.structs sid s _ hs
    · simp [defineDefaultConstructor, hs, hcheck, hctor]
    · simp [defineDefaultConstructor, hs, hcheck, hctor]

/-- The concrete struct used to evaluate C1: one initializer-less stored
member of builtin-integer type. -/
def c1ExStruct : StructD :=
  ⟨[Member.patternBindingM false [⟨⟨"x", Ty.builtinInteger⟩, false⟩]]⟩

/-- The concrete pass state used to evaluate C1: `c1ExStruct` is pending and
still needing a default constructor. -/
def c1ExState : TCPassState := ⟨[(0, c1ExStruct)], [0], [0], [], []⟩

/-- Witness for C1: evaluating the success case of the pending-synthesis
theorem at `c1ExState`. -/
theorem definePendingImplicitDecls_spec_witness :
    (c1ExStruct.members.any memberBlocksDefaultCtor = false →
      (definePendingImplicitDecls c1ExState).structs.lookup 0 =
        some { members := c1ExStruct.members ++ [Member.ctorDeclM
          { params := [], implicit := true, body := some [] }] } ∧
      (definePendingImplicitDecls c1ExState).implicitlyDefinedFunctions =
        c1ExState.implicitlyDefinedFunctions ++
          [{ params := [], implicit := true, body := some [] }] ∧
      (definePendingImplicitDecls c1ExState).diags = c1ExState.diags) ∧
    c1ExStruct.members.any memberBlocksDefaultCtor = false :=
  ⟨(definePendingImplicitDecls_spec c1ExState 0 c1ExStruct rfl
      (by decide) rfl).2,
    by decide⟩

/-- C10: in the resolving pass, a typed, initializer-less pattern binding
outside a type context whose pattern is a single variable that is a property
is left untouched: no default initializer is synthesized, no diagnostic is
emitted, and the binding is not marked invalid — regardless of the
pattern's resolved type (in particular when it is not
default-initializable). -/
theorem propertyPatternBinding_no_synthesis (isTypeContext tcPatternOk
    tcExprOk : Bool) (patTy : Ty) (pbd : PBDm)
    (hinit : pbd.init = none)
    (hprop : isPatternProperty pbd.pattern = true) :
    defaultInitPatternBindingBranch false isTypeContext tcPatternOk patTy
      tcExprOk pbd = (pbd, []) := by
  unfold defaultInitPatternBindingBranch
  by_cases hguard : (pbd.init.isNone && !false &&
      isTypedPattern pbd.pattern && !isTypeContext) = true
  · rw [if_pos hguard]
    cases tcPatternOk with
    | false => simp
    | true => simp [hprop]
  · rw [if_neg hguard]

/-- Witness for C10 at a concrete property binding whose declared type is a
protocol (not default-initializable). -/
theorem propertyPatternBinding_no_synthesis_witness :
    (PBDm.mk none (Pat.typedP (Pat.namedP true)) false).init = none ∧
    isPatternProperty (PBDm.mk none (Pat.typedP (Pat.namedP true))
      false).pattern = true ∧
    defaultInitPatternBindingBranch false false true Ty.protocolT true
      (PBDm.mk none (Pat.typedP (Pat.namedP true)) false) =
      (PBDm.mk none (Pat.typedP (Pat.namedP true)) false, []) :=
  ⟨rfl, rfl,
    propertyPatternBinding_no_synthesis false true true Ty.protocolT
      (PBDm.mk none (Pat.typedP (Pat.namedP true)) false) rfl rfl⟩

/-- A non-operator variable declaration carrying a (violated) `[infix]`
attribute and a (always-invalid) `[thin]` attribute. -/
def c5ExDecl : VDeclM :=
  { attrs := { objcA := false
               ownership := none
               iboutletA := false
               ibactionA := false
               isInfixAttr := true
               explicitPostfixA := false
               explicitPrefixA := false
               assignmentA := false
               conversionA := false
               forceInlineA := false
               byrefA := false
               autoClosureA := false
               objcBlockA := false
               classProtocolA := false
               hasCCA := false
               thinA := true
               noReturnA := false }
    isFuncD := false
    isVarD := true
    isClassDeclD := false
    isProtocolDeclD := false
    isOperatorD := false
    isUnaryOp := false
    isBinaryOp := false
    nameIsAddressOf := false
    inClassContext := false
    declContextIsClassDecl := false
    isStaticD := false
    isGetterOrSetterD := false
    isInstanceMemberD := false
    protocolRequiresClass := false
    typeAllowsOwnership := false
    typeIsOpaque := false
    typeIsError := false
    resultIsEmptyTuple := false
    numArguments := -1
    firstParamIsLValue := false
    conversionInputAllDefaulted := false
    numParamPatterns := 0
    hasGenericParamsD := false
    tyWrappedOwnership := false }

/-- Counterexample to C5: on `c5ExDecl` the violated `[infix]` precondition
reports a diagnostic but leaves the attribute set, and validation returns
early, so the still-set (and also invalid) `[thin]` attribute is neither
diagnosed nor cleared. -/
theorem validateAttributes_clear_continue_counterexample :
    validateAttributes c5ExDecl = (c5ExDecl, [Diag.infixNotAnOperator]) ∧
    c5ExDecl.attrs.isInfixAttr = true ∧
    c5ExDecl.isOperatorD = false ∧
    c5ExDecl.attrs.thinA = true ∧
    (validateAttributes c5ExDecl).1.attrs.isInfixAttr = true ∧
    (validateAttributes c5ExDecl).1.attrs.thinA = true ∧
    Diag.invalidDeclAttribute "thin" ∉ (validateAttributes c5ExDecl).2 := by
  refine ⟨rfl, rfl, rfl, rfl, rfl, rfl, ?_⟩
  rw [show (validateAttributes c5ExDecl).2 = [Diag.infixNotAnOperator]
    from rfl]
  simp

/-- C5 as amended: a violated ownership-attribute precondition (the
attribute on a non-variable, or on a variable whose type does not admit
ownership) reports exactly one diagnostic, clears the attribute, and leaves
the declaration's type unmodified — unlike the fixity checks, which leave
the violated attribute set and stop processing the remaining attributes. -/
theorem validateAttributes_ownership_cleared (vd : VDeclM)
    (o : OwnershipKind)
    (hop : vd.isOperatorD = false)
    (hobjc : vd.attrs.objcA = false)
    (how : vd.attrs.ownership = some o)
    (hviol : vd.isVarD = false ∨ vd.typeAllowsOwnership = false) :
    (validateAttributes vd).1.attrs.ownership = none ∧
    (validateAttributes vd).2.length = 1 ∧
    (validateAttributes vd).1.tyWrappedOwnership = vd.tyWrappedOwnership := by
  rcases hviol with hv | ht
  · simp [validateAttributes, hop, hobjc, how, hv]
  · by_cases hv : vd.isVarD = true
    · by_cases hopq : vd.typeIsOpaque = true <;>
        simp [validateAttributes, hop, hobjc, how, hv, ht, hopq]
    · have hv' : vd.isVarD = false := by
        revert hv
        cases vd.isVarD <;> simp
      simp [validateAttributes, hop, hobjc, how, hv']

/-- A non-variable declaration carrying a `[weak]` attribute. -/
def c5OwnershipExDecl : VDeclM :=
  { attrs := { objcA := false
               ownership := some OwnershipKind.weakO
               iboutletA := false
               ibactionA := false
               isInfixAttr := false
               explicitPostfixA := false
               explicitPrefixA := false
               assignmentA := false
               conversionA := false
               forceInlineA := false
               byrefA := false
               autoClosureA := false
               objcBlockA := false
               classProtocolA := false
               hasCCA := false
               thinA := false
               noReturnA := false }
    isFuncD := true
    isVarD := false
    isClassDeclD := false
    isProtocolDeclD := false
    isOperatorD := false
    isUnaryOp := false
    isBinaryOp := false
    nameIsAddressOf := false
    inClassContext := false
    declContextIsClassDecl := false
    isStaticD := false
    isGetterOrSetterD := false
    isInstanceMemberD := false
    protocolRequiresClass := false
    typeAllowsOwnership := false
    typeIsOpaque := false
    typeIsError := false
    resultIsEmptyTuple := false
    numArguments := -1
    firstParamIsLValue := false
    conversionInputAllDefaulted := false
    numParamPatterns := 1
    hasGenericParamsD := false
    tyWrappedOwnership := false }

/-- Witness for the amended C5 at `c5OwnershipExDecl`. -/
theorem validateAttributes_ownership_cleared_witness :
    (validateAttributes c5OwnershipExDecl).1.attrs.ownership = none ∧
    (validateAttributes c5OwnershipExDecl).2.length = 1 ∧
    (validateAttributes c5OwnershipExDecl).1.tyWrappedOwnership =
      c5OwnershipExDecl.tyWrappedOwnership :=
  validateAttributes_ownership_cleared c5OwnershipExDecl
    OwnershipKind.weakO rfl rfl rfl (Or.inl rfl)

/-- C6: on a class declaration whose inheritance clause resolves to two
distinct class types `[ClassA, ClassB]`, inheritance resolution records
`ClassA` as the superclass and emits exactly one "multiple inheritance"
diagnostic naming `ClassB`, which is not recorded. -/
theorem checkInheritanceClause_multiple_inheritance (a b : String)
    (k1 k2 : Nat) (d : IDecl)
    (hkind : d.kind = DKind.classK)
    (hfreshP : d.protocols = [])
    (hfreshS : d.superclassF = none)
    (hinh : d.inherited = [some (RTy.classR k1 a), some (RTy.classR k2 b)])
    (hne : k1 ≠ k2) :
    (checkInheritanceClause d).1.superclassF = some a ∧
    (checkInheritanceClause d).2 = [Diag.multipleInheritance a b] := by
  have hchk : alreadyCheckedInheritanceClause d = false := by
    simp [alreadyCheckedInheritanceClause, hkind, hfreshP, hfreshS]
  have hne' : k2 ≠ k1 := Ne.symm hne
  simp [checkInheritanceClause, hchk, hinh, hkind, inhLoop, RTy.key,
    canInheritClass, hne']

/-- Witness for C6 at concrete classes `A`, `B` with distinct canonical
types. -/
theorem checkInheritanceClause_multiple_inheritance_witness :
    (checkInheritanceClause
      (IDecl.mk DKind.classK
        [some (RTy.classR 0 "A"), some (RTy.classR 1 "B")] [] none
        [])).1.superclassF = some "A" ∧
    (checkInheritanceClause
      (IDecl.mk DKind.classK
        [some (RTy.classR 0 "A"), some (RTy.classR 1 "B")] [] none
        [])).2 = [Diag.multipleInheritance "A" "B"] :=
  checkInheritanceClause_multiple_inheritance "A" "B" 0 1 _ rfl rfl rfl rfl
    (by decide)

theorem inhLoop_sup_of_not_canInherit (k : DKind)
    (hk : canInheritClass k = false) :
    ∀ (entries : List (Option RTy)) (i : Nat) (protos : List String)
      (seen : List Nat) (diags : List Diag),
      (inhLoop k entries i none protos seen diags).1 = none := by
  intro entries
  induction entries with
  | nil => intro i protos seen diags; simp [inhLoop]
  | cons e rest ih =>
    intro i protos seen diags
    cases e with
    | none => simpa [inhLoop] using ih (i + 1) protos seen diags
    | some rty =>
      cases rty with
      | existR key ps =>
        by_cases hkey : key ∈ seen <;>
          simp [inhLoop, RTy.key, hkey] <;> apply ih
      | classR key name =>
        by_cases hkey : key ∈ seen <;>
          simp [inhLoop, RTy.key, hkey, hk] <;> apply ih
      | errR key =>
        by_cases hkey : key ∈ seen <;>
          simp [inhLoop, RTy.key, hkey] <;> apply ih
      | otherR key name =>
        by_cases hkey : key ∈ seen <;>
          simp [inhLoop, RTy.key, hkey] <;> apply ih

/-- C7: inheritance-clause resolution is idempotent on the recorded state —
running it a second time yields exactly the state recorded by the first
run — and on an already-checked declaration it records nothing new. -/
theorem checkInheritanceClause_idempotent (d : IDecl) :
    (checkInheritanceClause (checkInheritanceClause d).1).1 =
      (checkInheritanceClause d).1 ∧
    (alreadyCheckedInheritanceClause d = true →
      checkInheritanceClause d = (d, [])) := by
  refine ⟨?_, fun h => by simp [checkInheritanceClause, h]⟩
  by_cases h : alreadyCheckedInheritanceClause d = true
  · simp [checkInheritanceClause, h]
  · have h' : alreadyCheckedInheritanceClause d = false :=
      Bool.eq_false_iff.mpr h
    rcases hloop : inhLoop d.kind d.inherited 0 none [] [] [] with
      ⟨sup, protos, diags⟩
    by_cases hempty : (protos.isEmpty && sup.isNone) = true
    · have hres : checkInheritanceClause d = (d, diags) := by
        simp [checkInheritanceClause, h', hloop, hempty]
      have h1 : (checkInheritanceClause d).1 = d := by rw [hres]
      rw [h1]
      exact h1
    · have hprotos_of_sup : sup = none → protos ≠ [] := by
        intro hsup hnil
        subst hsup
        subst hnil
        simp at hempty
      cases hkind : d.kind with
      | extensionK =>
        rw [hkind] at hloop
        have hsup : sup = none := by
          have := inhLoop_sup_of_not_canInherit DKind.extensionK rfl
            d.inherited 0 [] [] []
          rw [hloop] at this
          exact this
        have hprotos : protos ≠ [] := hprotos_of_sup hsup
        have hres : checkInheritanceClause d =
            ({ d with protocols := protos }, diags) := by
          simp [checkInheritanceClause, h', hkind, hloop, hsup, hprotos]
        have h1 : (checkInheritanceClause d).1 =
            { d with protocols := protos } := by rw [hres]
        rw [h1]
        have hchk2 : alreadyCheckedInheritanceClause
            { d with protocols := protos } = true := by
          simp [alreadyCheckedInheritanceClause, hkind, hprotos]
        simp [checkInheritanceClause, hchk2]
      | classK =>
        rw [hkind] at hloop
        cases hsup : sup with
        | some s0 =>
          rw [hsup] at hloop
          have hres : checkInheritanceClause d =
              ({ d with protocols := protos, superclassF := some s0 },
                diags) := by
            simp [checkInheritanceClause, h', hkind, hloop]
          have h1 : (checkInheritanceClause d).1 =
              { d with protocols := protos, superclassF := some s0 } := by
            rw [hres]
          rw [h1]
          have hchk2 : alreadyCheckedInheritanceClause
              { d with protocols := protos, superclassF := some s0 } =
                true := by
            simp [alreadyCheckedInheritanceClause, hkind]
          simp [checkInheritanceClause, hchk2]
        | none =>
          rw [hsup] at hloop
          have hprotos : protos ≠ [] := hprotos_of_sup hsup
          have hres : checkInheritanceClause d =
              ({ d with protocols := protos }, diags) := by
            simp [checkInheritanceClause, h', hkind, hloop, hprotos]
          have h1 : (checkInheritanceClause d).1 =
              { d with protocols := protos } := by rw [hres]
          rw [h1]
          have hchk2 : alreadyCheckedInheritanceClause
              { d with protocols := protos } = true := by
            simp [alreadyCheckedInheritanceClause, hkind, hprotos]
          simp [checkInheritanceClause, hchk2]
      | structK =>
        rw [hkind] at hloop
        have hsup : sup = none := by
          have := inhLoop_sup_of_not_canInherit DKind.structK rfl
            d.inherited 0 [] [] []
          rw [hloop] at this
          exact this
        have hprotos : protos ≠ [] := hprotos_of_sup hsup
        rw [hsup] at hloop
        have hres : checkInheritanceClause d =
            ({ d with protocols := protos }, diags) := by
          simp [checkInheritanceClause, h', hkind, hloop, hprotos]
        have h1 : (checkInheritanceClause d).1 =
            { d with protocols := protos } := by rw [hres]
        rw [h1]
        have hchk2 : alreadyCheckedInheritanceClause
            { d with protocols := protos } = true := by
          simp [alreadyCheckedInheritanceClause, hkind, hprotos]
        simp [checkInheritanceClause, hchk2]
      | unionK =>
        rw [hkind] at hloop
        have hsup : sup = none := by
          have := inhLoop_sup_of_not_canInherit DKind.unionK rfl
            d.inherited 0 [] [] []
          rw [hloop] at this
          exact this
        have hprotos : protos ≠ [] := hprotos_of_sup hsup
        rw [hsup] at hloop
        have hres : checkInheritanceClause d =
            ({ d with protocols := protos }, diags) := by
          simp [checkInheritanceClause, h', hkind, hloop, hprotos]
        have h1 : (checkInheritanceClause d).1 =
            { d with protocols := protos } := by rw [hres]
        rw [h1]
        have hchk2 : alreadyCheckedInheritanceClause
            { d with protocols := protos } = true := by
          simp [alreadyCheckedInheritanceClause, hkind, hprotos]
        simp [checkInheritanceClause, hchk2]
      | protocolK =>
        rw [hkind] at hloop
        have hsup : sup = none := by
          have := inhLoop_sup_of_not_canInherit DKind.protocolK rfl
            d.inherited 0 [] [] []
          rw [hloop] at this
          exact this
        have hprotos : protos ≠ [] := hprotos_of_sup hsup
        rw [hsup] at hloop
        have hres : checkInheritanceClause d =
            ({ d with
                protocols := protos
                conformances := List.replicate protos.length none },
              diags) := by
          simp [checkInheritanceClause, h', hkind, hloop, hprotos]
        have h1 : (checkInheritanceClause d).1 =
            { d with
              protocols := protos
              conformances := List.replicate protos.length none } := by
          rw [hres]
        rw [h1]
        have hchk2 : alreadyCheckedInheritanceClause
            { d with
              protocols := protos
              conformances := List.replicate protos.length none } =
              true := by
          simp [alreadyCheckedInheritanceClause, hkind, hprotos]
        simp [checkInheritanceClause, hchk2]
      | typeAliasK gp inProto =>
        rw [hkind] at hloop
        cases hsup : sup with
        | some s0 =>
          have hgp : gp = true := by
            by_contra hgp
            have hgp' : gp = false := by
              revert hgp
              cases gp <;> simp
            have := inhLoop_sup_of_not_canInherit
              (DKind.typeAliasK gp inProto)
              (by simp [canInheritClass, hgp']) d.inherited 0 [] [] []
            rw [hloop, hsup] at this
            cases this
          subst hgp
          rw [hsup] at hloop
          have hres : checkInheritanceClause d =
              ({ d with
                  protocols := protos
                  superclassF := some s0
                  conformances := List.replicate protos.length none },
                diags) := by
            simp [checkInheritanceClause, h', hkind, hloop]
          have h1 : (checkInheritanceClause d).1 =
              { d with
                protocols := protos
                superclassF := some s0
                conformances := List.replicate protos.length none } := by
            rw [hres]
          rw [h1]
          have hchk2 : alreadyCheckedInheritanceClause
              { d with
                protocols := protos
                superclassF := some s0
                conformances := List.replicate protos.length none } =
                true := by
            simp [alreadyCheckedInheritanceClause, hkind]
          simp [checkInheritanceClause, hchk2]
        | none =>
          have hprotos : protos ≠ [] := hprotos_of_sup hsup
          rw [hsup] at hloop
          by_cases hpl : (inProto || gp) = true
          · have hres : checkInheritanceClause d =
                ({ d with
                    protocols := protos
                    conformances := List.replicate protos.length none },
                  diags) := by
              simp [checkInheritanceClause, h', hkind, hloop, hprotos, hpl]
            have h1 : (checkInheritanceClause d).1 =
                { d with
                  protocols := protos
                  conformances := List.replicate protos.length none } := by
              rw [hres]
            rw [h1]
            have hchk2 : alreadyCheckedInheritanceClause
                { d with
                  protocols := protos
                  conformances := List.replicate protos.length none } =
                  true := by
              simp [alreadyCheckedInheritanceClause, hkind, hprotos]
            simp [checkInheritanceClause, hchk2]
          · have hpl' : (inProto || gp) = false := Bool.eq_false_iff.mpr hpl
            have hres : checkInheritanceClause d =
                ({ d with protocols := protos }, diags) := by
              simp [checkInheritanceClause, h', hkind, hloop, hprotos, hpl']
            have h1 : (checkInheritanceClause d).1 =
                { d with protocols := protos } := by rw [hres]
            rw [h1]
            have hchk2 : alreadyCheckedInheritanceClause
                { d with protocols := protos } = true := by
              simp [alreadyCheckedInheritanceClause, hkind, hprotos]
            simp [checkInheritanceClause, hchk2]

/-- Witness for C7, evaluating the already-checked conjunct at a concrete
class declaration with a recorded protocol. -/
theorem checkInheritanceClause_idempotent_witness :
    alreadyCheckedInheritanceClause
        (IDecl.mk DKind.classK [] ["P"] none []) = true ∧
    checkInheritanceClause (IDecl.mk DKind.classK [] ["P"] none []) =
      (IDecl.mk DKind.classK [] ["P"] none [], []) :=
  ⟨rfl,
    (checkInheritanceClause_idempotent
      (IDecl.mk DKind.classK [] ["P"] none [])).2 rfl⟩

mutual

theorem marksSoundC : ∀ (c : Conf) (p : ProtoD) (w : String),
    w ∈ checkObjCConformanceC p c → MarksWitness p c w
  | .mk ws inh, p, w, h => by
    simp only [checkObjCConformanceC] at h
    rcases List.mem_append.mp h with h1 | h2
    · by_cases hobjc : p.objcAttr = true
      · exact MarksWitness.here p ws inh w hobjc (by simpa [hobjc] using h1)
      · rw [if_neg (by simpa using hobjc)] at h1
        cases h1
    · obtain ⟨q, c', hmem, hw⟩ := marksSoundInh inh w h2
      exact MarksWitness.nested p ws inh q c' w hmem hw

theorem marksSoundInh : ∀ (l : InhConfList) (w : String),
    w ∈ markInheritedConformances l →
    ∃ q c, InhMem q c l ∧ MarksWitness q c w
  | .nilI, w, h => by simp [markInheritedConformances] at h
  | .consNull r rest, w, h => by
    simp only [markInheritedConformances] at h
    obtain ⟨q, c, hm, hw⟩ := marksSoundInh rest w h
    exact ⟨q, c, InhMem.tailNull q c r rest hm, hw⟩
  | .consConf q0 c0 rest, w, h => by
    simp only [markInheritedConformances] at h
    rcases List.mem_append.mp h with h1 | h2
    · exact ⟨q0, c0, InhMem.headM q0 c0 rest, marksSoundC c0 q0 w h1⟩
    · obtain ⟨q, c, hm, hw⟩ := marksSoundInh rest w h2
      exact ⟨q, c, InhMem.tailConf q c q0 c0 rest hm, hw⟩

end

theorem inhMem_marks_subset {q : ProtoD} {c : Conf} {l : InhConfList}
    (hm : InhMem q c l) :
    ∀ w, w ∈ checkObjCConformanceC q c →
      w ∈ markInheritedConformances l := by
  induction hm with
  | headM rest =>
    intro w hw
    simp only [markInheritedConformances, List.mem_append]
    exact Or.inl hw
  | tailNull r rest hm ih =>
    intro w hw
    simp only [markInheritedConformances]
    exact ih w hw
  | tailConf r c' rest hm ih =>
    intro w hw
    simp only [markInheritedConformances, List.mem_append]
    exact Or.inr (ih w hw)

theorem marksComplete {p : ProtoD} {c : Conf} {w : String}
    (h : MarksWitness p c w) : w ∈ checkObjCConformanceC p c := by
  induction h with
  | here p ws inh w hobjc hw =>
    simp only [checkObjCConformanceC, List.mem_append, if_pos hobjc]
    exact Or.inl hw
  | nested p ws inh q c w hm hwit ih =>
    simp only [checkObjCConformanceC, List.mem_append]
    exact Or.inr (inhMem_marks_subset hm w ih)

/-- C8: the bridging propagation marks exactly the witnesses reachable
through the conformance graph under bridgeable protocols — in particular,
for a non-null conformance whose protocol is ObjC it marks every witness in
its witness map and, transitively, the witnesses of every nested
inherited-protocol conformance whose protocol is also ObjC — and a null
conformance is skipped without effect. -/
theorem checkObjCConformance_spec :
    (∀ p : ProtoD, checkObjCConformance p none = []) ∧
    (∀ (p : ProtoD) (c : Conf) (w : String),
      w ∈ checkObjCConformance p (some c) ↔ MarksWitness p c w) := by
  refine ⟨fun p => rfl, fun p c w => ?_⟩
  constructor
  · intro h
    exact marksSoundC c p w (by simpa [checkObjCConformance] using h)
  · intro h
    simpa [checkObjCConformance] using marksComplete h

theorem gatherFromProtos_snd (oracle : String → Option Nat) :
    ∀ (ps known : List String),
      (gatherFromProtos oracle ps known).1.map Prod.snd =
        ((gatherFromProtos oracle ps known).1.map Prod.fst).map oracle
  | [], known => rfl
  | p :: ps, known => by
    by_cases hp : p ∈ known
    · simp only [gatherFromProtos, if_pos hp]
      exact gatherFromProtos_snd oracle ps known
    · rcases hg : gatherFromProtos oracle ps (known ++ [p]) with
        ⟨pairs, known2⟩
      have ih := gatherFromProtos_snd oracle ps (known ++ [p])
      rw [hg] at ih
      simp only [gatherFromProtos, if_neg hp, hg, List.map_cons]
      simpa using ih

theorem gatherLoop_snd (oracle : String → Option Nat) :
    ∀ (entries : List (Option RTy)) (known : List String),
      (gatherLoop oracle entries known).map Prod.snd =
        ((gatherLoop oracle entries known).map Prod.fst).map oracle
  | [], known => rfl
  | entry :: rest, known => by
    cases entry with
    | none =>
      simp only [gatherLoop]
      exact gatherLoop_snd oracle rest known
    | some rty =>
      cases rty with
      | existR key ps =>
        rcases hg : gatherFromProtos oracle ps known with ⟨pairs, known2⟩
        have h1 := gatherFromProtos_snd oracle ps known
        rw [hg] at h1
        have ih := gatherLoop_snd oracle rest known2
        simp only [gatherLoop, hg, List.map_append]
        rw [h1, ih]
      | classR key name =>
        simp only [gatherLoop]
        exact gatherLoop_snd oracle rest known
      | errR key =>
        simp only [gatherLoop]
        exact gatherLoop_snd oracle rest known
      | otherR key name =>
        simp only [gatherLoop]
        exact gatherLoop_snd oracle rest known

/-- Counterexample to C9: right after inheritance resolution, a struct that
inherits one protocol has a one-element protocol list but a still-empty
conformance list — the two lists are not always the same length. -/
theorem conformance_lists_length_counterexample :
    ((checkInheritanceClause (IDecl.mk DKind.structK
      [some (RTy.existR 0 ["P"])] [] none [])).1.protocols.length = 1) ∧
    ((checkInheritanceClause (IDecl.mk DKind.structK
      [some (RTy.existR 0 ["P"])] [] none [])).1.conformances.length = 0) :=
  ⟨rfl, rfl⟩

/-- C9 as amended: the protocol and conformance lists agree in length and
index-alignment at the points where the conformance list is written — after
`gatherExplicitConformances` (index-alignment additionally using the
source's asserted invariant that a pre-populated protocol list of matching
length equals the recomputed one), and when `checkInheritanceClause`
records null-conformance placeholders for a protocol declaration — but
between inheritance resolution and the conformance pass a nominal type's
protocol list can be nonempty while its conformance list is still empty. -/
theorem conformance_lists_aligned :
    (∀ (oracle : String → Option Nat) (d : IDecl),
      (gatherExplicitConformances oracle d).protocols.length =
        (gatherExplicitConformances oracle d).conformances.length) ∧
    (∀ (oracle : String → Option Nat) (d : IDecl),
      (d.protocols.length = (gatherLoop oracle d.inherited []).length →
        d.protocols = (gatherLoop oracle d.inherited []).map Prod.fst) →
      (gatherExplicitConformances oracle d).conformances =
        (gatherExplicitConformances oracle d).protocols.map oracle) ∧
    (∀ d : IDecl, d.kind = DKind.protocolK → d.protocols = [] →
      d.conformances = [] →
      (checkInheritanceClause d).1.conformances.length =
        (checkInheritanceClause d).1.protocols.length) := by
  refine ⟨?_, ?_, ?_⟩
  · intro oracle d
    by_cases hlen : d.protocols.length =
        (gatherLoop oracle d.inherited []).length
    · simp only [gatherExplicitConformances, List.length_map, if_pos hlen]
      exact hlen
    · simp only [gatherExplicitConformances, List.length_map, if_neg hlen]
  · intro oracle d hass
    by_cases hlen : d.protocols.length =
        ((gatherLoop oracle d.inherited []).map Prod.fst).length
    · have heq : d.protocols =
          (gatherLoop oracle d.inherited []).map Prod.fst :=
        hass (by simpa using hlen)
      simp only [gatherExplicitConformances, if_pos hlen]
      rw [heq]
      exact gatherLoop_snd oracle d.inherited []
    · simp only [gatherExplicitConformances, if_neg hlen]
      exact gatherLoop_snd oracle d.inherited []
  · intro d hkind hprot hconf
    have h' : alreadyCheckedInheritanceClause d = false := by
      simp [alreadyCheckedInheritanceClause, hkind, hprot]
    rcases hloop : inhLoop d.kind d.inherited 0 none [] [] [] with
      ⟨sup, protos, diags⟩
    rw [hkind] at hloop
    have hsup : sup = none := by
      have := inhLoop_sup_of_not_canInherit DKind.protocolK rfl
        d.inherited 0 [] [] []
      rw [hloop] at this
      exact this
    rw [hsup] at hloop
    by_cases hempty : protos.isEmpty = true
    · have hnil : protos = [] := by
        cases protos with
        | nil => rfl
        | cons a l => simp at hempty
      rw [hnil] at hloop
      simp [checkInheritanceClause, h', hkind, hloop, hprot, hconf]
    · have hprotos : protos ≠ [] := by
        intro hnil
        rw [hnil] at hempty
        simp at hempty
      simp [checkInheritanceClause, h', hkind, hloop, hprotos]

/-- Witness for the amended C9: evaluating the alignment conjuncts at a
concrete declaration and oracle. -/
theorem conformance_lists_aligned_witness :
    ((gatherExplicitConformances (fun _ => some 7) (IDecl.mk DKind.structK
        [some (RTy.existR 0 ["P"])] [] none [])).conformances =
      (gatherExplicitConformances (fun _ => some 7) (IDecl.mk DKind.structK
        [some (RTy.existR 0 ["P"])] [] none [])).protocols.map
        (fun _ => some 7)) ∧
    ((checkInheritanceClause (IDecl.mk DKind.protocolK
        [some (RTy.existR 0 ["P"])] [] none [])).1.conformances.length =
      (checkInheritanceClause (IDecl.mk DKind.protocolK
        [some (RTy.existR 0 ["P"])] [] none [])).1.protocols.length) :=
  ⟨conformance_lists_aligned.2.1 (fun _ => some 7)
      (IDecl.mk DKind.structK [some (RTy.existR 0 ["P"])] [] none [])
      (fun h => absurd h (by decide)),
    conformance_lists_aligned.2.2
      (IDecl.mk DKind.protocolK [some (RTy.existR 0 ["P"])] [] none [])
      rfl rfl rfl⟩
